import Mathlib

set_option maxHeartbeats 1000000

/-!
Verification of the BHITL administrative backend against its design
specification.  The Python route handlers in `app/api/routes/` are embedded
as pure Lean functions over an explicit database state; SQL statements are
translated to list operations (a primary-key lookup is `List.find?`, a join
is a `bind`/`filter`, `GROUP BY` a per-row aggregation under the primary-key
uniqueness guaranteed by the schema, `OFFSET`/`LIMIT` are `drop`/`take`).
HTTP errors (`HTTPException`) are the `Except` error channel; an unhandled
Python `AttributeError` is modelled by its own error constructor.  Mutating
handlers return the resulting database next to the response, so a handler
that raises before touching the session returns the state unchanged.
-/

namespace BHITL

/-- A row of the `User` table (`app/models.py` is not among the sources; the
fields follow the spec data model: id, email (unique), hashed password, full
name, is_active, is_superuser).  UUIDs are represented by naturals. -/
structure UserT where
  id : Nat
  email : String
  hashed_password : String
  full_name : Option String
  is_active : Bool
  is_superuser : Bool
deriving DecidableEq

/-- A row of the `Principle` table: id, name, definition, inclusion criteria,
exclusion criteria (the criteria are nullable: the routes render them with
`or ""`). -/
structure PrincipleT where
  id : String
  name : String
  definition : String
  inclusion_criteria : Option String
  exclusion_criteria : Option String
deriving DecidableEq

/-- Modelled from the spec: the `Comment` table (aliased `Sample` in the
routes; `app/models.py` is not among the sources).  Fields follow the spec
data model — id, preceding/target/following text spans, three numeric
scores, principle_id, llm justification and evidence quote — exactly the
fields `initial_data2.py` populates.  It has no `name`, `definition`,
`inclusion_criteria` or `exclusion_criteria` attribute. -/
structure CommentT where
  id : String
  preceding : String
  target : String
  following : String
  A1_Score : Int
  A2_Score : Int
  A3_Score : Int
  principle_id : String
  llm_justification : String
  llm_evidence_quote : String
deriving DecidableEq

/-- A row of the `UserCommentRevision` table: id, user_id, comment_id,
principle_id, is_revise_completed. -/
structure UserCommentRevisionT where
  id : Nat
  user_id : Nat
  comment_id : String
  principle_id : String
  is_revise_completed : Bool
deriving DecidableEq

/-- The relational store: one list per table. -/
structure DB where
  users : List UserT
  principles : List PrincipleT
  comments : List CommentT
  revisions : List UserCommentRevisionT
deriving DecidableEq

/-- An error surfaced to the caller: an `HTTPException` with status and
detail, or an unhandled Python `AttributeError` (reading an attribute the
row does not have), which the framework turns into a 500. -/
inductive HTTPErr where
  | http (status : Nat) (detail : String)
  | attrError (attr : String)
deriving DecidableEq

/-- `true` iff the result is an `HTTPException` with the given status. -/
def isStatus {α : Type} (n : Nat) : Except HTTPErr α → Bool
  | Except.error (HTTPErr.http m _) => m == n
  | _ => false

/-- Equality of handler results is decidable, so the theorems below can be
evaluated on concrete stores. -/
instance {ε α : Type} [DecidableEq ε] [DecidableEq α] : DecidableEq (Except ε α) :=
  fun a b =>
    match a, b with
    | Except.error e, Except.error f =>
      if h : e = f then Decidable.isTrue (by rw [h])
      else Decidable.isFalse (fun c => h (Except.error.inj c))
    | Except.error _, Except.ok _ => Decidable.isFalse (fun c => Except.noConfusion c)
    | Except.ok _, Except.error _ => Decidable.isFalse (fun c => Except.noConfusion c)
    | Except.ok x, Except.ok y =>
      if h : x = y then Decidable.isTrue (by rw [h])
      else Decidable.isFalse (fun c => h (Except.ok.inj c))

/-- The `Message` response schema. -/
structure Message where
  message : String
deriving DecidableEq

/-- Modelled from the spec: the credential store's hash generation
(`app/core/security.py` is not among the sources; the spec lists it as an
external primitive).  Any injective function serves. -/
def get_password_hash (password : String) : String :=
  "$hash$" ++ password

/-- Modelled from the spec: the credential store's hash verification;
succeeds exactly on the password the stored hash was generated from. -/
def verify_password (plain hashed : String) : Bool :=
  get_password_hash plain == hashed

/-- Modelled from the spec: the `get_current_active_superuser` dependency
(`app/api/deps.py` is not among the sources): rejects a caller who is not a
superuser with permission-denied.  Callers are assumed authenticated and
active, which the `CurrentUser` dependency enforces upstream. -/
def guard_superuser (u : UserT) : Except HTTPErr Unit :=
  if u.is_superuser then Except.ok ()
  else Except.error (HTTPErr.http 403 ("The user does not have enough privileges"))

/-- Modelled from the spec: `crud.get_user_by_email` (`app/crud.py` is not
among the sources): selects the first user with the given email. -/
def get_user_by_email (db : DB) (email : String) : Option UserT :=
  db.users.find? (fun u => u.email == email)

/-- Replace the row with the updated user's primary key (the effect of
`session.add` + `commit` on a row loaded in the session). -/
def replaceUserRow (db : DB) (u : UserT) : DB :=
  { db with users := db.users.map (fun w => if w.id == u.id then u else w) }

/-! ## Request schemas -/

/-- `UserUpdateMe`: optional email and full name; an absent field is `none`. -/
structure UserUpdateMe where
  email : Option String
  full_name : Option String
deriving DecidableEq

/-- `UserUpdate` (superuser patch): optional email, full name, password and
flags; an absent field is `none`. -/
structure UserUpdate where
  email : Option String
  full_name : Option String
  password : Option String
  is_active : Option Bool
  is_superuser : Option Bool
deriving DecidableEq

/-- `UpdatePassword` request body. -/
structure UpdatePassword where
  current_password : String
  new_password : String
deriving DecidableEq

/-- `UpdatePrincipleRequest`: every field optional. -/
structure UpdatePrincipleRequest where
  label_name : Option String
  definition : Option String
  inclusion_criteria : Option String
  exclusion_criteria : Option String
deriving DecidableEq

/-- `PrincipleSchema` response row (also the shape of `SampleSchema`). -/
structure PrincipleSchema where
  id : String
  label_name : String
  definition : String
  inclusion_criteria : String
  exclusion_criteria : String
deriving DecidableEq

/-- `SampleSchema` response row of the samples route. -/
structure SampleSchema where
  id : String
  label_name : String
  definition : String
  inclusion_criteria : String
  exclusion_criteria : String
deriving DecidableEq

/-- `SampleSchemaResponse`. -/
structure SampleSchemaResponse where
  samples : List SampleSchema
deriving DecidableEq

/-- `UserReviseStats`: a user profile together with the computed
`revised_count` (the `UserPublic` projection merely drops the stored hash and
is irrelevant to every claim, so the whole row is carried). -/
structure UserReviseStats where
  user : UserT
  revised_count : Nat
deriving DecidableEq

/-- `NonSuperUsersResponse`. -/
structure NonSuperUsersResponse where
  total_comments : Nat
  users : List UserReviseStats
deriving DecidableEq

/-- Response of the dataset export: the `{comment_id, principle_id}` pairs
(JSON text serialization abstracted: the claims are about which pairs
appear) and the attachment filename. -/
structure FileResponse where
  dataset : List (String × String)
  filename : String
deriving DecidableEq

/-! ## Route handlers (`app/api/routes/users.py`) -/

/-- `GET /users/non-superusers` (`read_non_super_users`).  First statement:
`count(UserCommentRevision.id)` over the inner join with `User` on
`User.id == user_id`, where not superuser and revision completed.  Second
statement: users outer-joined with their completed revisions on
`(User.id == user_id) & completed`, where not superuser, grouped by the
user primary key, counting matched revisions (0 when none), then
`OFFSET skip LIMIT limit`. -/
def read_non_super_users (db : DB) (caller : UserT) (skip limit : Nat) :
    Except HTTPErr NonSuperUsersResponse :=
  match guard_superuser caller with
  | Except.error e => Except.error e
  | Except.ok _ =>
    let total_comments :=
      ((db.revisions.flatMap (fun r =>
          (db.users.filter (fun u => u.id == r.user_id)).map (fun u => (r, u)))).filter
        (fun ru => !ru.2.is_superuser && ru.1.is_revise_completed)).length
    let rows :=
      (db.users.filter (fun u => !u.is_superuser)).map
        (fun u => (u, (db.revisions.filter
            (fun r => u.id == r.user_id && r.is_revise_completed)).length))
    Except.ok
      { total_comments := total_comments
        users := ((rows.drop skip).take limit).map
          (fun uc => { user := uc.1, revised_count := uc.2 }) }

/-- Apply `sqlmodel_update` with `exclude_unset=True` for `UserUpdateMe`:
only provided fields change. -/
def apply_user_update_me (u : UserT) (user_in : UserUpdateMe) : UserT :=
  { u with
    email := user_in.email.getD u.email
    full_name := match user_in.full_name with
      | some v => some v
      | none => u.full_name }

/-- `PATCH /users/me` (`update_user_me`).  `if user_in.email:` is Python
truthiness: the conflict check is skipped both for an absent email and for
the empty string. -/
def update_user_me (db : DB) (current_user : UserT) (user_in : UserUpdateMe) :
    Except HTTPErr UserT × DB :=
  let conflict :=
    match user_in.email with
    | some e =>
      if e == "" then false
      else
        match get_user_by_email db e with
        | some existing_user => !(existing_user.id == current_user.id)
        | none => false
    | none => false
  if conflict then
    (Except.error (HTTPErr.http 409 ("User with this email already exists")), db)
  else
    let updated := apply_user_update_me current_user user_in
    (Except.ok updated, replaceUserRow db updated)

/-- `PATCH /users/me/password` (`update_password_me`). -/
def update_password_me (db : DB) (current_user : UserT) (body : UpdatePassword) :
    Except HTTPErr Message × DB :=
  if !(verify_password body.current_password current_user.hashed_password) then
    (Except.error (HTTPErr.http 400 ("Incorrect password")), db)
  else if body.current_password == body.new_password then
    (Except.error
      (HTTPErr.http 400 ("New password cannot be the same as the current one")), db)
  else
    let updated := { current_user with
      hashed_password := get_password_hash body.new_password }
    (Except.ok { message := "Password updated successfully" }, replaceUserRow db updated)

/-- `DELETE /users/me` (`delete_user_me`). -/
def delete_user_me (db : DB) (current_user : UserT) : Except HTTPErr Message × DB :=
  if current_user.is_superuser then
    (Except.error
      (HTTPErr.http 403 ("Super users are not allowed to delete themselves")), db)
  else
    (Except.ok { message := "User deleted successfully" },
     { db with users := db.users.filter (fun u => !(u.id == current_user.id)) })

/-- `GET /users/{user_id}` (`read_user_by_id`).  `session.get` is the
primary-key lookup; a missing row is `none`.  The Python comparison
`user == current_user` is row identity (the session identity map), hence
structural equality here; `None == current_user` is false. -/
def read_user_by_id (db : DB) (current_user : UserT) (user_id : Nat) :
    Except HTTPErr (Option UserT) :=
  let user := db.users.find? (fun u => u.id == user_id)
  if user = some current_user then Except.ok user
  else if !current_user.is_superuser then
    Except.error (HTTPErr.http 403 ("The user does not have enough privileges"))
  else Except.ok user

/-- Modelled from the spec: `crud.update_user` (`app/crud.py` is not among
the sources): applies the provided fields of the update request; a provided
password is stored hashed. -/
def crud_update_user (db_user : UserT) (user_in : UserUpdate) : UserT :=
  { db_user with
    email := user_in.email.getD db_user.email
    full_name := match user_in.full_name with
      | some v => some v
      | none => db_user.full_name
    is_active := user_in.is_active.getD db_user.is_active
    is_superuser := user_in.is_superuser.getD db_user.is_superuser
    hashed_password := match user_in.password with
      | some p => get_password_hash p
      | none => db_user.hashed_password }

/-- `PATCH /users/{user_id}` (`update_user`), superuser-only by route
dependency.  Same truthiness caveat on `if user_in.email:` as in
`update_user_me`; the conflict comparison is against the target `user_id`. -/
def update_user (db : DB) (caller : UserT) (user_id : Nat) (user_in : UserUpdate) :
    Except HTTPErr UserT × DB :=
  match guard_superuser caller with
  | Except.error e => (Except.error e, db)
  | Except.ok _ =>
    match db.users.find? (fun u => u.id == user_id) with
    | none =>
      (Except.error
        (HTTPErr.http 404 ("The user with this id does not exist in the system")), db)
    | some db_user =>
      let conflict :=
        match user_in.email with
        | some e =>
          if e == "" then false
          else
            match get_user_by_email db e with
            | some existing_user => !(existing_user.id == user_id)
            | none => false
        | none => false
      if conflict then
        (Except.error (HTTPErr.http 409 ("User with this email already exists")), db)
      else
        let updated := crud_update_user db_user user_in
        (Except.ok updated, replaceUserRow db updated)

/-- `DELETE /users/{user_id}` (`delete_user`), superuser-only by route
dependency.  `user == current_user` is row identity as in
`read_user_by_id`. -/
def delete_user (db : DB) (current_user : UserT) (user_id : Nat) :
    Except HTTPErr Message × DB :=
  match guard_superuser current_user with
  | Except.error e => (Except.error e, db)
  | Except.ok _ =>
    match db.users.find? (fun u => u.id == user_id) with
    | none => (Except.error (HTTPErr.http 404 ("User not found")), db)
    | some user =>
      if user = current_user then
        (Except.error
          (HTTPErr.http 403 ("Super users are not allowed to delete themselves")), db)
      else
        (Except.ok { message := "User deleted successfully" },
         { db with users := db.users.filter (fun u => !(u.id == user_id)) })

/-- `GET /users/{user_id}/get-dataset` (`get_user_dataset`). -/
def get_user_dataset (db : DB) (current_user : UserT) (user_id : Nat) :
    Except HTTPErr FileResponse :=
  if !(current_user.id == user_id) && !current_user.is_superuser then
    Except.error (HTTPErr.http 403 ("The user does not have enough privileges"))
  else
    let results := db.revisions.filter
      (fun r => r.user_id == user_id && r.is_revise_completed)
    Except.ok
      { dataset := results.map (fun r => (r.comment_id, r.principle_id))
        filename := "dataset_" ++ toString user_id ++ ".json" }

/-! ## Route handlers (`app/api/routes/principles.py`) -/

/-- Render a principle row as the response schema (`or ""` on the nullable
criteria). -/
def principleToSchema (p : PrincipleT) : PrincipleSchema :=
  { id := p.id
    label_name := p.name
    definition := p.definition
    inclusion_criteria := p.inclusion_criteria.getD ""
    exclusion_criteria := p.exclusion_criteria.getD "" }

/-- The four `if ... is not None` assignments of `update_principle`. -/
def applyPrincipleUpdate (p : PrincipleT) (principle_in : UpdatePrincipleRequest) :
    PrincipleT :=
  let p1 := match principle_in.label_name with
    | some v => { p with name := v }
    | none => p
  let p2 := match principle_in.definition with
    | some v => { p1 with definition := v }
    | none => p1
  let p3 := match principle_in.inclusion_criteria with
    | some v => { p2 with inclusion_criteria := some v }
    | none => p2
  let p4 := match principle_in.exclusion_criteria with
    | some v => { p3 with exclusion_criteria := some v }
    | none => p3
  p4

/-- Replace the principle row with the given primary key (the effect of
`session.add` + `commit` on a principle loaded in the session). -/
def replacePrincipleRow (db : DB) (principle_id : String) (p : PrincipleT) : DB :=
  let stored := db.principles.map (fun q => if q.id == principle_id then p else q)
  { db with principles := stored }

/-- `PATCH /principles/{principle_id}` (`update_principle`).  The handler
takes the authenticated caller but — unlike the superuser-only user routes —
performs no role check on it. -/
def update_principle (db : DB) (_current_user : UserT) (principle_id : String)
    (principle_in : UpdatePrincipleRequest) : Except HTTPErr PrincipleSchema × DB :=
  match db.principles.find? (fun p => p.id == principle_id) with
  | none =>
    (Except.error
      (HTTPErr.http 404 ("Principle with id " ++ principle_id ++ " not found")), db)
  | some principle =>
    let updated := applyPrincipleUpdate principle principle_in
    (Except.ok (principleToSchema updated), replacePrincipleRow db principle_id updated)

/-! ## Route handler (`app/api/routes/samples.py`) -/

/-- Python attribute lookup on a `Comment` row, by attribute name: `some`
for the attributes the model has (the three numeric scores are omitted from
this string-valued lookup; the samples route never reads them), `none` for
an attribute it does not have. -/
def commentGetattr (c : CommentT) (attr : String) : Option String :=
  if attr == "id" then some c.id
  else if attr == "preceding" then some c.preceding
  else if attr == "target" then some c.target
  else if attr == "following" then some c.following
  else if attr == "principle_id" then some c.principle_id
  else if attr == "llm_justification" then some c.llm_justification
  else if attr == "llm_evidence_quote" then some c.llm_evidence_quote
  else none

/-- Reading a missing attribute raises `AttributeError`, which surfaces as
an unhandled error (HTTP 500). -/
def attrOr500 (c : CommentT) (attr : String) : Except HTTPErr String :=
  match commentGetattr c attr with
  | some v => Except.ok v
  | none => Except.error (HTTPErr.attrError attr)

/-- `GET /samples` (the route function is itself named `get_principles`, a
copy of the principles list): maps every `Comment` row through attribute
reads `id`, `name`, `definition`, `inclusion_criteria`,
`exclusion_criteria` (the `or ""` on the criteria would apply only after a
successful attribute read). -/
def samples_get_principles (db : DB) (_current_user : UserT) :
    Except HTTPErr SampleSchemaResponse := do
  let rows ← db.comments.mapM (fun c => do
    let i ← attrOr500 c ("id")
    let n ← attrOr500 c ("name")
    let d ← attrOr500 c ("definition")
    let ic ← attrOr500 c ("inclusion_criteria")
    let ec ← attrOr500 c ("exclusion_criteria")
    pure ({ id := i, label_name := n, definition := d,
            inclusion_criteria := ic, exclusion_criteria := ec } : SampleSchema))
  pure { samples := rows }

/-! ## Spec-side expressions -/

/-- The non-superuser users, in table order. -/
def nonSuperUsers (db : DB) : List UserT :=
  db.users.filter (fun u => !u.is_superuser)

/-- The number of a user's `UserCommentRevision` rows with
`is_revise_completed = true`. -/
def completedRevisionCount (db : DB) (uid : Nat) : Nat :=
  (db.revisions.filter (fun r => uid == r.user_id && r.is_revise_completed)).length

/-! ## Concrete fixtures -/

/-- A non-superuser reviewer with two revisions (one completed). -/
def uAlice : UserT :=
  { id := 1, email := "alice@example.com",
    hashed_password := get_password_hash ("alicepw"),
    full_name := some ("Alice"), is_active := true, is_superuser := false }

/-- A superuser. -/
def uBob : UserT :=
  { id := 2, email := "bob@example.com",
    hashed_password := get_password_hash ("bobpw"),
    full_name := some ("Bob"), is_active := true, is_superuser := true }

/-- A non-superuser with one completed revision. -/
def uCarol : UserT :=
  { id := 3, email := "carol@example.com",
    hashed_password := get_password_hash ("carolpw"),
    full_name := none, is_active := true, is_superuser := false }

/-- A non-superuser with no revisions at all. -/
def uDave : UserT :=
  { id := 4, email := "dave@example.com",
    hashed_password := get_password_hash ("davepw"),
    full_name := some ("Dave"), is_active := true, is_superuser := false }

/-- A seeded principle. -/
def pRespect : PrincipleT :=
  { id := "p1", name := "respect", definition := "be respectful",
    inclusion_criteria := some ("direct address"), exclusion_criteria := none }

/-- A seeded sample row. -/
def cSample : CommentT :=
  { id := "c1", preceding := "before", target := "text", following := "after",
    A1_Score := 1, A2_Score := 2, A3_Score := 3, principle_id := "p1",
    llm_justification := "because", llm_evidence_quote := "text" }

/-- Alice's completed revision. -/
def rev1 : UserCommentRevisionT :=
  { id := 10, user_id := 1, comment_id := "c1", principle_id := "p1",
    is_revise_completed := true }

/-- Alice's pending revision. -/
def rev2 : UserCommentRevisionT :=
  { id := 11, user_id := 1, comment_id := "c2", principle_id := "p1",
    is_revise_completed := false }

/-- Carol's completed revision. -/
def rev3 : UserCommentRevisionT :=
  { id := 12, user_id := 3, comment_id := "c1", principle_id := "p2",
    is_revise_completed := true }

/-- A small concrete store exercising every table. -/
def db0 : DB :=
  { users := [uAlice, uBob, uCarol, uDave],
    principles := [pRespect],
    comments := [cSample],
    revisions := [rev1, rev2, rev3] }

/-! ## Counting lemmas for the aggregation query -/

/-- Filtering then counting is summing indicator values. -/
lemma length_filter_eq_sum_map {α : Type} (l : List α) (p : α → Bool) :
    (l.filter p).length = (l.map (fun x => if p x then 1 else 0)).sum := by
  induction l with
  | nil => rfl
  | cons x xs ih =>
    by_cases h : p x <;> (simp [List.filter_cons, h, ih]; try omega)

/-- Sums of pointwise sums split. -/
lemma sum_map_add_distrib {α : Type} (l : List α) (f g : α → Nat) :
    (l.map (fun x => f x + g x)).sum = (l.map f).sum + (l.map g).sum := by
  induction l with
  | nil => rfl
  | cons x xs ih => simp [ih]; omega

/-- Summing pointwise-equal functions gives equal sums. -/
lemma sum_map_eq_of_fun_eq {α : Type} (l : List α) (f g : α → Nat)
    (h : ∀ x, f x = g x) : (l.map f).sum = (l.map g).sum := by
  induction l with
  | nil => rfl
  | cons x xs ih => simp [h x, ih]

/-- Double counting: the matches of a relation can be summed from either
side. -/
lemma sum_count_swap {α β : Type} (xs : List α) (ys : List β) (q : α → β → Bool) :
    (xs.map (fun x => (ys.filter (fun y => q x y)).length)).sum
      = (ys.map (fun y => (xs.filter (fun x => q x y)).length)).sum := by
  induction xs with
  | nil => simp
  | cons x xs ih =>
    have h1 : ∀ y, ((x :: xs).filter (fun z => q z y)).length
        = (if q x y then 1 else 0) + (xs.filter (fun z => q z y)).length := by
      intro y
      by_cases h : q x y <;> (simp [List.filter_cons, h]; try omega)
    rw [List.map_cons, List.sum_cons, ih, sum_map_eq_of_fun_eq _ _ _ h1,
      sum_map_add_distrib, ← length_filter_eq_sum_map]

/-- Counting after a join step: the filtered concatenation is the sum of
the filtered pieces. -/
lemma length_filter_flatMap {α β : Type} (l : List α) (f : α → List β)
    (p : β → Bool) :
    ((l.flatMap f).filter p).length
      = (l.map (fun x => ((f x).filter p).length)).sum := by
  induction l with
  | nil => rfl
  | cons x xs ih => simp [List.filter_append, ih]

/-- Filtering a mapped list counts the preimages that pass. -/
lemma length_filter_of_filter_map {α β : Type} (l : List α) (f : α → β)
    (p : β → Bool) :
    ((l.map f).filter p).length = (l.filter (fun x => p (f x))).length := by
  induction l with
  | nil => rfl
  | cons x xs ih => by_cases h : p (f x) <;> simp [List.filter_cons, h, ih]

/-- Two successive filters count conjunctions. -/
lemma length_filter_and {α : Type} (l : List α) (p q : α → Bool) :
    ((l.filter p).filter q).length = (l.filter (fun x => p x && q x)).length := by
  induction l with
  | nil => rfl
  | cons x xs ih =>
    by_cases hp : p x <;> by_cases hq : q x <;>
      simp [List.filter_cons, hp, hq, ih, Bool.and_comm]

/-- Dropping the summands that vanish on superusers restricts the sum to
the non-superusers. -/
lemma sum_map_ite_superuser (l : List UserT) (c : UserT → Nat) :
    (l.map (fun u => if u.is_superuser then 0 else c u)).sum
      = ((l.filter (fun u => !u.is_superuser)).map c).sum := by
  induction l with
  | nil => rfl
  | cons x xs ih =>
    by_cases h : x.is_superuser <;> simp [List.filter_cons, h, ih]

/-- The first statement of `read_non_super_users` — the count over the
inner join of completed revisions with their non-superuser owner — equals
the sum, over every non-superuser in the table, of that user's completed
revision count. -/
lemma total_comments_eq (db : DB) :
    ((db.revisions.flatMap (fun r =>
        (db.users.filter (fun u => u.id == r.user_id)).map (fun u => (r, u)))).filter
      (fun ru => !ru.2.is_superuser && ru.1.is_revise_completed)).length
      = ((nonSuperUsers db).map (fun u => completedRevisionCount db u.id)).sum := by
  rw [length_filter_flatMap]
  have h1 : ∀ r : UserCommentRevisionT,
      (((db.users.filter (fun u => u.id == r.user_id)).map (fun u => (r, u))).filter
          (fun ru => !ru.2.is_superuser && ru.1.is_revise_completed)).length
        = (db.users.filter (fun u =>
            (u.id == r.user_id) && (!u.is_superuser && r.is_revise_completed))).length := by
    intro r
    rw [length_filter_of_filter_map, length_filter_and]
  rw [sum_map_eq_of_fun_eq _ _ _ h1, sum_count_swap]
  have h2 : ∀ u : UserT,
      (db.revisions.filter (fun r =>
          (u.id == r.user_id) && (!u.is_superuser && r.is_revise_completed))).length
        = if u.is_superuser then 0 else completedRevisionCount db u.id := by
    intro u
    by_cases h : u.is_superuser
    · simp [h]
    · simp [h, completedRevisionCount]
  rw [sum_map_eq_of_fun_eq _ _ _ h2, sum_map_ite_superuser]
  rfl

/-! ## Claims -/

/-- C1 statement at given arguments: the endpoint returns exactly the
non-superuser users of the window in table order, each with their own
completed-revision count (0 when they have none), and `total_comments` is
the sum of that count over all non-superusers in the whole table. -/
def c1Statement (db : DB) (caller : UserT) (skip limit : Nat) : Prop :=
  read_non_super_users db caller skip limit
    = Except.ok
        { total_comments :=
            ((nonSuperUsers db).map (fun u => completedRevisionCount db u.id)).sum
          users := (((nonSuperUsers db).drop skip).take limit).map
            (fun u => { user := u, revised_count := completedRevisionCount db u.id }) }

/-- C1: for every store and pagination window, GET /users/non-superusers
lists each non-superuser of the window with `revised_count` equal to their
number of completed `UserCommentRevision` rows (superusers never appear,
zero-revision users appear with count 0) and reports `total_comments` as
the sum of that count over all non-superusers in the table.  The
primary-key uniqueness of user ids, guaranteed by the schema, is the
premise under which `GROUP BY User.id` groups per user. -/
theorem c1_non_superusers_aggregation (db : DB) (caller : UserT)
    (skip limit : Nat) (hc : caller.is_superuser = true)
    (_hids : (db.users.map (fun u => u.id)).Nodup) :
    c1Statement db caller skip limit := by
  unfold c1Statement read_non_super_users
  simp only [guard_superuser, hc, if_true]
  rw [total_comments_eq db]
  have husers :
      ((((db.users.filter (fun u => !u.is_superuser)).map (fun u =>
          (u, (db.revisions.filter (fun r =>
            u.id == r.user_id && r.is_revise_completed)).length))).drop skip).take
        limit).map (fun uc => ({ user := uc.1, revised_count := uc.2 } : UserReviseStats))
      = (((nonSuperUsers db).drop skip).take limit).map
          (fun u => { user := u, revised_count := completedRevisionCount db u.id }) := by
    rw [← List.map_drop, ← List.map_take, List.map_map]
    rfl
  rw [husers]

/-- C1 witness: the concrete store, window `skip = 1, limit = 1`; Bob is a
superuser and user ids are distinct. -/
theorem c1_non_superusers_aggregation_witness :
    uBob.is_superuser = true
    ∧ (db0.users.map (fun u => u.id)).Nodup
    ∧ c1Statement db0 uBob 1 1 :=
  ⟨by decide, by decide,
   c1_non_superusers_aggregation db0 uBob 1 1 (by decide) (by decide)⟩

/-- A request updating only the definition of a principle. -/
def reqOnlyDefinition : UpdatePrincipleRequest :=
  { label_name := none, definition := some ("updated definition"),
    inclusion_criteria := none, exclusion_criteria := none }

/-- C2 (counterexample): the non-superuser Alice successfully updates a
principle through PATCH /principles/{id} — the request does not fail with
permission-denied and the stored principle changes, contradicting the claim
that the endpoint is restricted to superusers. -/
theorem c2_counterexample_non_superuser_updates_principle :
    uAlice.is_superuser = false
    ∧ (update_principle db0 uAlice ("p1") reqOnlyDefinition).1
        = Except.ok
            { id := "p1", label_name := "respect",
              definition := "updated definition",
              inclusion_criteria := "direct address", exclusion_criteria := "" }
    ∧ (update_principle db0 uAlice ("p1") reqOnlyDefinition).2.principles
        = [{ pRespect with definition := "updated definition" }] := by
  decide

/-- C2 (amended): PATCH /principles/{id} performs no role check at all: its
outcome is identical for every authenticated caller, and it never fails
with permission-denied (403); the only error it raises is not-found (404)
when the principle does not exist. -/
theorem c2_update_principle_has_no_role_check
    (db : DB) (u v : UserT) (pid : String) (req : UpdatePrincipleRequest) :
    update_principle db u pid req = update_principle db v pid req
    ∧ isStatus 403 (update_principle db u pid req).1 = false := by
  refine ⟨rfl, ?_⟩
  unfold update_principle
  cases h : db.principles.find? (fun p => p.id == pid) <;> simp [isStatus]

/-- C3 statement at given arguments: the export succeeds and returns
exactly one `(comment_id, principle_id)` pair per completed revision row of
the target user, as the attachment `dataset_{id}.json` (an empty list when
there are no completed revisions). -/
def c3Statement (db : DB) (cu : UserT) (uid : Nat) : Prop :=
  get_user_dataset db cu uid
    = Except.ok
        { dataset := (db.revisions.filter
            (fun r => r.user_id == uid && r.is_revise_completed)).map
            (fun r => (r.comment_id, r.principle_id))
          filename := "dataset_" ++ toString uid ++ ".json" }

/-- C3: for every target id and every caller who is the target or a
superuser, GET /users/{id}/get-dataset returns the completed-revision pairs
of the target as `dataset_{id}.json`, with an empty array (not an error)
when there are none. -/
theorem c3_get_dataset_pairs (db : DB) (cu : UserT) (uid : Nat)
    (h : cu.id = uid ∨ cu.is_superuser = true) :
    c3Statement db cu uid := by
  unfold c3Statement get_user_dataset
  rcases h with h | h <;> simp [h]

/-- C3 witness: Dave exports his own dataset; he has zero completed
revisions and receives the empty array. -/
theorem c3_get_dataset_pairs_witness :
    uDave.id = 4 ∧ c3Statement db0 uDave 4 :=
  ⟨by decide, c3_get_dataset_pairs db0 uDave 4 (Or.inl (by decide))⟩

/-- C5 (code evaluated at the failing input): with a single seeded sample
row the GET /samples handler fails with an `AttributeError` on `name` —
the `Comment` model has no such attribute — instead of returning one entry
per row as the claim states. -/
theorem c5_samples_route_attribute_error :
    db0.comments = [cSample]
    ∧ samples_get_principles db0 uAlice
        = Except.error (HTTPErr.attrError ("name")) := by
  decide

/-- C6 statement at given arguments: a superuser's self-delete through
DELETE /users/me fails with 403 leaving the store unchanged, and DELETE
/users/{id} fails with 403 leaving the store unchanged whenever the target
row is the caller. -/
def c6Statement (db : DB) (cu : UserT) (uid : Nat) : Prop :=
  (cu.is_superuser = true →
    delete_user_me db cu
      = (Except.error
          (HTTPErr.http 403 ("Super users are not allowed to delete themselves")),
         db))
  ∧ (db.users.find? (fun u => u.id == uid) = some cu →
      isStatus 403 (delete_user db cu uid).1 = true
      ∧ (delete_user db cu uid).2 = db)

/-- C6: no deletion path removes a superuser's own account — DELETE
/users/me rejects every superuser caller with 403, and DELETE /users/{id}
rejects every caller targeting themselves with 403; in both cases the user
table is unchanged. -/
theorem c6_no_superuser_self_delete (db : DB) (cu : UserT) (uid : Nat) :
    c6Statement db cu uid := by
  unfold c6Statement
  constructor
  · intro h
    unfold delete_user_me
    simp [h]
  · intro h
    unfold delete_user guard_superuser
    cases hs : cu.is_superuser <;> simp [h, isStatus]

/-- C6 witness: the superuser Bob can delete himself through neither path;
both antecedents are exercised concretely. -/
theorem c6_no_superuser_self_delete_witness :
    uBob.is_superuser = true
    ∧ db0.users.find? (fun u => u.id == 2) = some uBob
    ∧ c6Statement db0 uBob 2 :=
  ⟨by decide, by decide, c6_no_superuser_self_delete db0 uBob 2⟩

/-- C7 statement at given arguments: for the principle stored under `pid`,
a request carrying exactly one field updates exactly that field of the
stored row (and of the returned schema), leaving the other three unchanged
— one conjunct per field. -/
def c7Statement (db : DB) (cu : UserT) (pid : String) (p : PrincipleT) : Prop :=
  ∀ v : String,
    (update_principle db cu pid
        { label_name := none, definition := some v,
          inclusion_criteria := none, exclusion_criteria := none }
      = (Except.ok (principleToSchema { p with definition := v }),
         replacePrincipleRow db pid { p with definition := v }))
    ∧ (update_principle db cu pid
        { label_name := some v, definition := none,
          inclusion_criteria := none, exclusion_criteria := none }
      = (Except.ok (principleToSchema { p with name := v }),
         replacePrincipleRow db pid { p with name := v }))
    ∧ (update_principle db cu pid
        { label_name := none, definition := none,
          inclusion_criteria := some v, exclusion_criteria := none }
      = (Except.ok (principleToSchema { p with inclusion_criteria := some v }),
         replacePrincipleRow db pid { p with inclusion_criteria := some v }))
    ∧ (update_principle db cu pid
        { label_name := none, definition := none,
          inclusion_criteria := none, exclusion_criteria := some v }
      = (Except.ok (principleToSchema { p with exclusion_criteria := some v }),
         replacePrincipleRow db pid { p with exclusion_criteria := some v }))

/-- C7: updating a principle changes only the fields present in the
request — a request carrying only `definition` sets the definition and
leaves name and both criteria untouched, and symmetrically for each other
field. -/
theorem c7_principle_update_frame (db : DB) (cu : UserT) (pid : String)
    (p : PrincipleT) (h : db.principles.find? (fun q => q.id == pid) = some p) :
    c7Statement db cu pid p := by
  intro v
  refine ⟨?_, ?_, ?_, ?_⟩ <;>
    simp [update_principle, applyPrincipleUpdate, h]

/-- C7 witness: the seeded principle, updated field by field. -/
theorem c7_principle_update_frame_witness :
    db0.principles.find? (fun q => q.id == "p1") = some pRespect
    ∧ c7Statement db0 uBob ("p1") pRespect :=
  ⟨by decide, c7_principle_update_frame db0 uBob ("p1") pRespect (by decide)⟩

/-- C9 statement at given arguments: assuming the supplied current password
verifies, PATCH /users/me/password fails with 400 and leaves the store
unchanged when the new password equals the current one, and otherwise
replaces the caller's stored hash by the hash of the new password. -/
def c9Statement (db : DB) (cu : UserT) (body : UpdatePassword) : Prop :=
  (body.current_password = body.new_password →
    update_password_me db cu body
      = (Except.error
          (HTTPErr.http 400 ("New password cannot be the same as the current one")),
         db))
  ∧ (body.current_password ≠ body.new_password →
      update_password_me db cu body
        = (Except.ok { message := "Password updated successfully" },
           replaceUserRow db
             { cu with hashed_password := get_password_hash body.new_password }))

/-- C9: when the supplied current password verifies against the stored
hash, the password update rejects an unchanged password with 400 (store
untouched) and otherwise stores the hash of the new password. -/
theorem c9_password_update (db : DB) (cu : UserT) (body : UpdatePassword)
    (hv : verify_password body.current_password cu.hashed_password = true) :
    c9Statement db cu body := by
  unfold c9Statement
  constructor
  · intro h
    have hb : (body.current_password == body.new_password) = true := by simp [h]
    simp [update_password_me, hv, hb]
  · intro h
    have hb : (body.current_password == body.new_password) = false := by simp [h]
    simp [update_password_me, hv, hb]

/-- An attempt to re-use the current password. -/
def pwBodySame : UpdatePassword :=
  { current_password := "alicepw", new_password := "alicepw" }

/-- A proper password change. -/
def pwBodyNew : UpdatePassword :=
  { current_password := "alicepw", new_password := "newpw" }

/-- C9 witness: Alice's verifying current password, once re-used and once
properly changed. -/
theorem c9_password_update_witness :
    verify_password pwBodySame.current_password uAlice.hashed_password = true
    ∧ c9Statement db0 uAlice pwBodySame
    ∧ verify_password pwBodyNew.current_password uAlice.hashed_password = true
    ∧ c9Statement db0 uAlice pwBodyNew :=
  ⟨by decide, c9_password_update db0 uAlice pwBodySame (by decide),
   by decide, c9_password_update db0 uAlice pwBodyNew (by decide)⟩

/-- C10 statement at given arguments: the PATCH /users/me email-conflict
check does not fire when every holder of the requested email is the caller
themselves (in particular when nobody holds it), and when it does fire some
other user does hold that email. -/
def c10Statement (db : DB) (cu : UserT) (user_in : UserUpdateMe) (e : String) :
    Prop :=
  ((∀ u ∈ db.users, u.email = e → u.id = cu.id) →
    isStatus 409 (update_user_me db cu user_in).1 = false)
  ∧ (isStatus 409 (update_user_me db cu user_in).1 = true →
      ∃ u, u ∈ db.users ∧ u.email = e ∧ u.id ≠ cu.id)

/-- C10: the email-uniqueness check on PATCH /users/me exempts the caller's
own record — an email equal to the caller's own, or held by no other user,
never raises conflict, and a conflict is raised only when the email belongs
to a user with a different id. -/
theorem c10_email_check_exempts_self (db : DB) (cu : UserT)
    (user_in : UserUpdateMe) (e : String) (hmail : user_in.email = some e) :
    c10Statement db cu user_in e := by
  unfold c10Statement
  constructor
  · intro hall
    cases he : e == "" with
    | true => simp [update_user_me, hmail, he, isStatus]
    | false =>
      cases hf : db.users.find? (fun u => u.email == e) with
      | none => simp [update_user_me, get_user_by_email, hmail, he, hf, isStatus]
      | some u =>
        have hu : u.email = e := by simpa using List.find?_some hf
        have hid : u.id = cu.id := hall u (List.mem_of_find?_eq_some hf) hu
        simp [update_user_me, get_user_by_email, hmail, he, hf, hid, isStatus]
  · intro h409
    cases he : e == "" with
    | true => simp [update_user_me, hmail, he, isStatus] at h409
    | false =>
      cases hf : db.users.find? (fun u => u.email == e) with
      | none =>
        simp [update_user_me, get_user_by_email, hmail, he, hf, isStatus] at h409
      | some u =>
        by_cases hid : u.id = cu.id
        · simp [update_user_me, get_user_by_email, hmail, he, hf, hid,
            isStatus] at h409
        · exact ⟨u, List.mem_of_find?_eq_some hf,
            by simpa using List.find?_some hf, hid⟩

/-- C4 (counterexample): no user with id 999 exists, yet for a superuser
caller GET /users/999 succeeds with a null profile and
GET /users/999/get-dataset succeeds with an empty dataset — neither
returns the not-found (404) error the claim requires. -/
theorem c4_counterexample_missing_user_not_404 :
    (∀ u ∈ db0.users, u.id ≠ 999)
    ∧ read_user_by_id db0 uBob 999 = Except.ok none
    ∧ get_user_dataset db0 uBob 999
        = Except.ok { dataset := [], filename := "dataset_999.json" } := by
  decide

/-- The empty admin update request. -/
def reqAdminEmpty : UserUpdate :=
  { email := none, full_name := none, password := none,
    is_active := none, is_superuser := none }

/-- C4 (amended) statement at given arguments: when no user has the given
id, PATCH /users/{id} and DELETE /users/{id} fail with 404, while GET
/users/{id} (for a superuser caller) returns a null profile instead of 404
and GET /users/{id}/get-dataset never returns 404 at all. -/
def c4Statement (db : DB) (caller : UserT) (uid : Nat) (user_in : UserUpdate) :
    Prop :=
  (update_user db caller uid user_in).1
      = Except.error
          (HTTPErr.http 404 ("The user with this id does not exist in the system"))
  ∧ (delete_user db caller uid).1
      = Except.error (HTTPErr.http 404 ("User not found"))
  ∧ read_user_by_id db caller uid = Except.ok none
  ∧ isStatus 404 (get_user_dataset db caller uid) = false

/-- C4 (amended): only the mutating by-id user endpoints return 404 for a
missing user; the read and export endpoints do not — GET /users/{id} hands
a superuser the missing (null) row and the dataset export performs no
existence check. -/
theorem c4_missing_user_behaviour (db : DB) (caller : UserT) (uid : Nat)
    (user_in : UserUpdate) (hm : ∀ u ∈ db.users, u.id ≠ uid)
    (hs : caller.is_superuser = true) :
    c4Statement db caller uid user_in := by
  have hf : db.users.find? (fun u => u.id == uid) = none := by
    rw [List.find?_eq_none]
    intro u hu
    simpa using hm u hu
  unfold c4Statement
  refine ⟨?_, ?_, ?_, ?_⟩
  · simp [update_user, guard_superuser, hs, hf]
  · simp [delete_user, guard_superuser, hs, hf]
  · simp [read_user_by_id, hf, hs]
  · unfold get_user_dataset
    split <;> simp [isStatus]

/-- C4 (amended) witness: the concrete store has no user 999; Bob is a
superuser. -/
theorem c4_missing_user_behaviour_witness :
    (∀ u ∈ db0.users, u.id ≠ 999)
    ∧ uBob.is_superuser = true
    ∧ c4Statement db0 uBob 999 reqAdminEmpty :=
  ⟨by decide, by decide,
   c4_missing_user_behaviour db0 uBob 999 reqAdminEmpty (by decide) (by decide)⟩

/-- C8 statement at given arguments: both PATCH /users/me (for caller `cu`)
and the superuser PATCH /users/{uid} reject the request with conflict (409)
and leave the store unchanged, under the respective premise that every
holder of the requested email is a different user than the one being
updated. -/
def c8Statement (db : DB) (cu caller : UserT) (uid : Nat) (e : String)
    (uiMe : UserUpdateMe) (uiAdmin : UserUpdate) : Prop :=
  ((∀ u ∈ db.users, u.email = e → u.id ≠ cu.id) →
    update_user_me db cu uiMe
      = (Except.error (HTTPErr.http 409 ("User with this email already exists")),
         db))
  ∧ ((∀ u ∈ db.users, u.email = e → u.id ≠ uid) →
      update_user db caller uid uiAdmin
        = (Except.error (HTTPErr.http 409 ("User with this email already exists")),
           db))

/-- C8: updating a user to a (schema-valid, hence non-empty) email already
held by a different user fails with conflict (409) and leaves the store
unchanged, both on the self-update and on the superuser by-id update. -/
theorem c8_duplicate_email_conflict (db : DB) (cu caller : UserT) (uid : Nat)
    (e : String) (uiMe : UserUpdateMe) (uiAdmin : UserUpdate)
    (he : (e == "") = false)
    (hme : uiMe.email = some e) (hadm : uiAdmin.email = some e)
    (hs : caller.is_superuser = true)
    (htgt : db.users.find? (fun u => u.id == uid) ≠ none)
    (hex : ∃ u ∈ db.users, u.email = e) :
    c8Statement db cu caller uid e uiMe uiAdmin := by
  obtain ⟨u0, hm0, he0⟩ := hex
  unfold c8Statement
  cases hf : db.users.find? (fun w => w.email == e) with
  | none =>
    exfalso
    rw [List.find?_eq_none] at hf
    exact (by simpa [he0] using hf u0 hm0)
  | some u =>
    have hu : u.email = e := by simpa using List.find?_some hf
    have hm : u ∈ db.users := List.mem_of_find?_eq_some hf
    constructor
    · intro hall
      have hid : (u.id == cu.id) = false := by simp [hall u hm hu]
      simp [update_user_me, get_user_by_email, hme, he, hf, hid]
    · intro hall
      have hid : (u.id == uid) = false := by simp [hall u hm hu]
      cases ht : db.users.find? (fun w => w.id == uid) with
      | none => exact absurd ht htgt
      | some t =>
        simp [update_user, guard_superuser, hs, ht, get_user_by_email, hadm,
          he, hf, hid]

/-- A request asking for Carol's email. -/
def reqCarolEmail : UserUpdateMe :=
  { email := some ("carol@example.com"), full_name := none }

/-- An admin request asking for Carol's email. -/
def reqAdminCarolEmail : UserUpdate :=
  { email := some ("carol@example.com"), full_name := none, password := none,
    is_active := none, is_superuser := none }

/-- C8 witness: Carol already holds the requested email, which is neither
Alice's (self-update) nor Dave's (admin update of user 4); both antecedents
are exercised concretely. -/
theorem c8_duplicate_email_conflict_witness :
    (∀ u ∈ db0.users, u.email = "carol@example.com" → u.id ≠ uAlice.id)
    ∧ (∀ u ∈ db0.users, u.email = "carol@example.com" → u.id ≠ 4)
    ∧ c8Statement db0 uAlice uBob 4 ("carol@example.com")
        reqCarolEmail reqAdminCarolEmail :=
  ⟨by decide, by decide,
   c8_duplicate_email_conflict db0 uAlice uBob 4 ("carol@example.com")
     reqCarolEmail reqAdminCarolEmail (by decide) (by decide) (by decide)
     (by decide) (by decide) ⟨uCarol, by decide, by decide⟩⟩

/-- A request carrying the caller's own current email. -/
def reqOwnEmail : UserUpdateMe :=
  { email := some ("alice@example.com"), full_name := none }

/-- C10 witness: Alice re-submitting her own email is not rejected. -/
theorem c10_email_check_exempts_self_witness :
    reqOwnEmail.email = some ("alice@example.com")
    ∧ c10Statement db0 uAlice reqOwnEmail ("alice@example.com") :=
  ⟨by decide,
   c10_email_check_exempts_self db0 uAlice reqOwnEmail ("alice@example.com")
     (by decide)⟩

end BHITL
